import Mathlib

/-!
Verification of the Chord DHT node of DHTNode.py: the finger table, the
protocol handlers and the message processing loop, embedded shallowly.
Node identifiers, network addresses, keys and stored values are modelled as
naturals; the keystore dict as an association list looked up by key; a Python
exception raised inside a handler or the loop as the result none.
-/

/-- Modelled from the spec: utils.contains, imported by DHTNode.py while utils.py
is not among the sources. True iff x lies in the clockwise ring interval that
starts just after o and ends at b inclusive, with wraparound handled when b is
numerically below o. -/
def contains (o b x : Nat) : Bool :=
  if o < b then decide (o < x ∧ x ≤ b) else decide (o < x ∨ x ≤ b)

/-- Modelled from the spec: utils.dht_hash, imported by DHTNode.py while utils.py
is not among the sources. A deterministic node-independent mapping of a key into
the identifier space of size 2 ^ m with m = 10; keys are modelled as naturals
and the hash as reduction mod 1024. -/
def dht_hash (k : Nat) : Nat := k % 1024

/-- FingerTable of DHTNode.py: the list of (node_id, node_addr) pairs of length
m_bits together with the constructor arguments kept on the object. -/
structure FingerTable where
  finger_table : List (Nat × Nat)
  m_bits : Nat
  node_id : Nat
  node_addr : Nat
deriving DecidableEq

/-- FingerTable constructor: every entry starts as (node_id, node_addr). -/
def FingerTable.init (node_id node_addr m_bits : Nat) : FingerTable :=
  ⟨List.replicate m_bits (node_id, node_addr), m_bits, node_id, node_addr⟩

/-- FingerTable.fill: set every one of the m_bits entries to (node_id, node_addr).
The Python loop writes indices 0 .. m_bits - 1 of a list whose length is always
m_bits, hence the replicate. -/
def FingerTable.fill (ft : FingerTable) (node_id node_addr : Nat) : FingerTable :=
  {ft with finger_table := List.replicate ft.m_bits (node_id, node_addr)}

/-- FingerTable.update: overwrite the 1-indexed entry index, i.e. list position
index - 1. Every caller in the source passes an index in 1 .. m_bits. -/
def FingerTable.update (ft : FingerTable) (index node_id node_addr : Nat) : FingerTable :=
  {ft with finger_table := ft.finger_table.set (index - 1) (node_id, node_addr)}

/-- The scan loop inside FingerTable.find: the 0-based position of the first
entry whose id satisfies contains(node_id, entry_id, ident), if any. -/
def scanMatch (nid ident : Nat) : List (Nat × Nat) → Nat → Option Nat
  | [], _ => none
  | e :: rest, i => if contains nid e.1 ident then some i else scanMatch nid ident rest (i + 1)

/-- FingerTable.find: scan the entries in order; at the first 0-based position i
whose entry id satisfies contains(node_id, entry_id, ident) return the address
at position i - 1, where Python index -1 denotes the last entry (hence the
mod-m_bits arithmetic); with no match return the last entry address. -/
def FingerTable.find (ft : FingerTable) (ident : Nat) : Nat :=
  match scanMatch ft.node_id ident ft.finger_table 0 with
  | some i => (ft.finger_table.getD ((i + ft.m_bits - 1) % ft.m_bits) (0, 0)).2
  | none => (ft.finger_table.getD (ft.finger_table.length - 1) (0, 0)).2

/-- FingerTable.refresh: for every 0-based i the triple of the 1-indexed entry
number i + 1, the ring target (node_id + 2 ^ i) mod 2 ^ m_bits, and the cached
address of entry i. -/
def FingerTable.refresh (ft : FingerTable) : List (Nat × Nat × Nat) :=
  (List.range ft.m_bits).map
    (fun i => (i + 1, (ft.node_id + 2 ^ i) % 2 ^ ft.m_bits, (ft.finger_table.getD i (0, 0)).2))

/-- FingerTable.getIdxFromId: the 1-indexed entry number i + 1 for the first
0-based i with contains(node_id, (node_id + 2 ^ i) mod 2 ^ m_bits, ident); the
Python function falls off the loop and returns None when no i matches. -/
def FingerTable.getIdxFromId (ft : FingerTable) (ident : Nat) : Option Nat :=
  ((List.range ft.m_bits).find?
    (fun i => contains ft.node_id ((ft.node_id + 2 ^ i) % 2 ^ ft.m_bits) ident)).map (· + 1)

/-- The protocol message envelopes of DHTNode.py, one constructor per method
verb, fields mirroring the args dict of each. A PUT or GET may lack the from
field, in which case the processing loop substitutes the sender address. -/
inductive Msg where
  | JOIN_REQ (id addr : Nat)
  | JOIN_REP (successor_id successor_addr : Nat)
  | NOTIFY (predecessor_id predecessor_addr : Nat)
  | STABILIZE (predecessor_id : Option Nat)
  | SUCCESSOR (id fromAddr : Nat)
  | SUCCESSOR_REP (req_id successor_id successor_addr : Nat)
  | PUT (key value : Nat) (fromAddr : Option Nat)
  | GET (key : Nat) (fromAddr : Option Nat)
  | ACK (args : Option Nat)
  | NACK
  | PREDECESSOR
deriving DecidableEq

/-- The mutable state of an active DHTNode as used by the handlers of the main
processing loop, where the successor fields are always set while the
predecessor fields may still be None. -/
structure NodeState where
  identification : Nat
  addr : Nat
  successor_id : Nat
  successor_addr : Nat
  predecessor_id : Option Nat
  predecessor_addr : Option Nat
  finger_table : FingerTable
  keystore : List (Nat × Nat)
deriving DecidableEq

namespace DHTNode

/-- DHTNode.node_join, the JOIN_REQ handler: returns the state after the
handler together with the messages it sends, as (destination, message) pairs
in sending order. -/
def node_join (st : NodeState) (jid jaddr : Nat) : NodeState × List (Nat × Msg) :=
  if st.identification = st.successor_id then
    ({st with successor_id := jid, successor_addr := jaddr,
              finger_table := st.finger_table.fill jid jaddr},
     [(jaddr, Msg.JOIN_REP st.identification st.addr)])
  else if contains st.identification st.successor_id jid then
    ({st with successor_id := jid, successor_addr := jaddr,
              finger_table := st.finger_table.fill jid jaddr},
     [(jaddr, Msg.JOIN_REP st.successor_id st.successor_addr)])
  else
    (st, [(st.successor_addr, Msg.JOIN_REQ jid jaddr)])

/-- DHTNode.get_successor, the SUCCESSOR handler: it never changes the state
and sends exactly one message, returned here as a (destination, message) pair. -/
def get_successor (st : NodeState) (asking_id asking_addr : Nat) : Nat × Msg :=
  if contains st.identification st.successor_id asking_id then
    (asking_addr, Msg.SUCCESSOR_REP asking_id st.successor_id st.successor_addr)
  else
    (st.successor_addr, Msg.SUCCESSOR asking_id asking_addr)

/-- DHTNode.notify, the NOTIFY handler: adopt the candidate as predecessor when
none is known or when the candidate lies between the current predecessor and
this node. Sends nothing. -/
def notify (st : NodeState) (pid paddr : Nat) : NodeState :=
  match st.predecessor_id with
  | none => {st with predecessor_id := some pid, predecessor_addr := some paddr}
  | some p =>
    if contains p st.identification pid then
      {st with predecessor_id := some pid, predecessor_addr := some paddr}
    else st

/-- DHTNode.stabilize: from_id is the predecessor id reported inside the
STABILIZE message and saddr the address the message came from. On a non-null
report inside (identification, successor_id] the successor and finger entry 1
are repointed; then a NOTIFY goes to the current successor address and the
lookup routine get_successor runs once per refresh target. -/
def stabilize (st : NodeState) (from_id : Option Nat) (saddr : Nat) : NodeState × List (Nat × Msg) :=
  let st1 := match from_id with
    | some f =>
      if contains st.identification st.successor_id f then
        {st with successor_id := f, successor_addr := saddr,
                 finger_table := st.finger_table.update 1 f saddr}
      else st
    | none => st
  (st1, (st1.successor_addr, Msg.NOTIFY st1.identification st1.addr)
          :: (st1.finger_table.refresh).map (fun t => get_successor st1 t.2.1 st1.addr))

/-- DHTNode.put: route on the hashed key; the middle branch evaluates
contains(predecessor_id, identification, key_hash), which in the source raises
a TypeError when predecessor_id is None, modelled as none. -/
def put (st : NodeState) (key value address : Nat) : Option (NodeState × List (Nat × Msg)) :=
  if contains st.identification st.successor_id (dht_hash key) then
    some (st, [(st.successor_addr, Msg.PUT key value (some address))])
  else
    match st.predecessor_id with
    | none => none
    | some p =>
      if contains p st.identification (dht_hash key) then
        match List.lookup key st.keystore with
        | none => some ({st with keystore := (key, value) :: st.keystore},
                        [(address, Msg.ACK none)])
        | some _ => some (st, [(address, Msg.NACK)])
      else
        some (st, [(st.finger_table.find (dht_hash key), Msg.PUT key value (some address))])

/-- DHTNode.get: route on the hashed key exactly as put does; on local
ownership reply ACK with the stored value when the key is present and NACK
otherwise. The same None-predecessor TypeError is modelled as none. -/
def get (st : NodeState) (key address : Nat) : Option (NodeState × List (Nat × Msg)) :=
  if contains st.identification st.successor_id (dht_hash key) then
    some (st, [(st.successor_addr, Msg.GET key (some address))])
  else
    match st.predecessor_id with
    | none => none
    | some p =>
      if contains p st.identification (dht_hash key) then
        match List.lookup key st.keystore with
        | some value => some (st, [(address, Msg.ACK (some value))])
        | none => some (st, [(address, Msg.NACK)])
      else
        some (st, [(st.finger_table.find (dht_hash key), Msg.GET key (some address))])

end DHTNode

/-- What one recv of the processing loop can yield: bytes pickle.loads cannot
decode, a decoded object lacking the expected method or args fields, or a
well-formed message. -/
inductive Wire where
  | undecodable
  | missingFields
  | msg (m : Msg)
deriving DecidableEq

namespace DHTNode

/-- One iteration of the second while loop of DHTNode.run on a received
payload: sender is the source address recvfrom reported. none models an
uncaught exception killing the loop: pickle.loads on undecodable bytes, a
KeyError on a decoded object without the expected fields, and the TypeError
from update(getIdxFromId(...) - 1) when getIdxFromId returns None. Methods
without a matching elif fall through as no-ops. -/
def runStep (st : NodeState) (sender : Nat) (w : Wire) : Option (NodeState × List (Nat × Msg)) :=
  match w with
  | .undecodable => none
  | .missingFields => none
  | .msg m =>
    match m with
    | .JOIN_REQ jid jaddr => some (node_join st jid jaddr)
    | .NOTIFY pid paddr => some (notify st pid paddr, [])
    | .PUT k v mf => put st k v (mf.getD sender)
    | .GET k mf => get st k (mf.getD sender)
    | .PREDECESSOR => some (st, [(sender, Msg.STABILIZE st.predecessor_id)])
    | .SUCCESSOR q qa => some (st, [get_successor st q qa])
    | .STABILIZE pid => some (stabilize st pid sender)
    | .SUCCESSOR_REP req sid sa =>
      match st.finger_table.getIdxFromId req with
      | none => none
      | some i => some ({st with finger_table := st.finger_table.update i sid sa}, [])
    | .JOIN_REP _ _ => some (st, [])
    | .ACK _ => some (st, [])
    | .NACK => some (st, [])

end DHTNode

/-- The full field set written by the DHTNode constructor, where the successor
fields are still None when a bootstrap address was given. -/
structure InitState where
  done : Bool
  identification : Nat
  addr : Nat
  dht_address : Option Nat
  inside_dht : Bool
  successor_id : Option Nat
  successor_addr : Option Nat
  predecessor_id : Option Nat
  predecessor_addr : Option Nat
  finger_table : FingerTable
  keystore : List (Nat × Nat)
deriving DecidableEq

/-- The DHTNode constructor: with no bootstrap address the node is immediately
inside the DHT and its own successor; with one it starts outside with null
successor. The finger table starts with every entry pointing at the node
itself and m_bits left at the default 10. -/
def dhtnode_init (address : Nat) (dht_address : Option Nat) : InitState :=
  match dht_address with
  | none =>
    { done := false, identification := dht_hash address, addr := address,
      dht_address := none, inside_dht := true,
      successor_id := some (dht_hash address), successor_addr := some address,
      predecessor_id := none, predecessor_addr := none,
      finger_table := FingerTable.init (dht_hash address) address 10, keystore := [] }
  | some d =>
    { done := false, identification := dht_hash address, addr := address,
      dht_address := some d, inside_dht := false,
      successor_id := none, successor_addr := none,
      predecessor_id := none, predecessor_addr := none,
      finger_table := FingerTable.init (dht_hash address) address 10, keystore := [] }

/-- The JOIN_REP processing inside the first while loop of DHTNode.run: adopt
the reported successor, fill the finger table with it and enter the DHT. -/
def processJoinRep (ist : InitState) (sid sa : Nat) : InitState :=
  {ist with successor_id := some sid, successor_addr := some sa,
            finger_table := ist.finger_table.fill sid sa, inside_dht := true}

/-- The state a handler left behind: the new state on normal completion, the
unmodified input state when the handler raised, since every modelled raise
happens before any field was written. -/
def afterState (r : Option (NodeState × List (Nat × Msg))) (st : NodeState) : NodeState :=
  (r.getD (st, [])).1

/-- The ownership test of the DHTNode.put and DHTNode.get middle branch as the claims phrase
it: the hashed key falls between the predecessor and this node, false when no
predecessor is known. -/
def localOwner (st : NodeState) (kh : Nat) : Bool :=
  match st.predecessor_id with
  | some p => contains p st.identification kh
  | none => false

/-- Finger table entry 1 mirrors the current successor. -/
@[reducible] def entryOneInv (st : NodeState) : Prop :=
  st.finger_table.finger_table.head? = some (st.successor_id, st.successor_addr)

/-- The shape every constructed node has: a positive entry count matching the
list length. -/
@[reducible] def wfTable (st : NodeState) : Prop :=
  0 < st.finger_table.m_bits ∧ st.finger_table.finger_table.length = st.finger_table.m_bits

/-- x lies strictly inside the open clockwise ring interval from o to b. -/
@[reducible] def strictlyBetween (o b x : Nat) : Prop :=
  contains o b x = true ∧ x ≠ b

/-- Discriminates the SUCCESSOR_REP envelopes. -/
def isSuccessorRep : Wire → Bool
  | .msg (.SUCCESSOR_REP _ _ _) => true
  | _ => false

/-- There is a first matching scan position j: entry j matches the contains
test of FingerTable.find and no earlier entry does. -/
@[reducible] def FirstMatch (ft : FingerTable) (ident j : Nat) : Prop :=
  j < ft.finger_table.length
  ∧ contains ft.node_id (ft.finger_table.getD j (0, 0)).1 ident = true
  ∧ ∀ k, k < j → contains ft.node_id (ft.finger_table.getD k (0, 0)).1 ident = false

/-- No entry matches the contains test of FingerTable.find. -/
@[reducible] def NoMatch (ft : FingerTable) (ident : Nat) : Prop :=
  ∀ k, k < ft.finger_table.length → contains ft.node_id (ft.finger_table.getD k (0, 0)).1 ident = false

/-- The routing outcome a DHTNode.put or DHTNode.get run can be classified into from its
output alone: an uncaught exception, a forward of the request to some address,
or a local ACK or NACK reply. -/
inductive RouteOutcome where
  | crashed
  | forwarded (dest : Nat)
  | localReply
deriving DecidableEq

/-- Classify the output of DHTNode.put or DHTNode.get. -/
def routeClass (r : Option (NodeState × List (Nat × Msg))) : RouteOutcome :=
  match r with
  | none => .crashed
  | some (_, [(d, Msg.PUT _ _ _)]) => .forwarded d
  | some (_, [(d, Msg.GET _ _)]) => .forwarded d
  | some (_, [(_, Msg.ACK _)]) => .localReply
  | some (_, [(_, Msg.NACK)]) => .localReply
  | some _ => .crashed

/-- A concrete active node, identification 0, successor (5, 50), on the
default table of 10 bits. -/
def stC1 : NodeState :=
  { identification := 0, addr := 1, successor_id := 5, successor_addr := 50,
    predecessor_id := none, predecessor_addr := none,
    finger_table := FingerTable.init 0 1 10, keystore := [] }

/-- A concrete active node for the processing-loop resilience check. -/
def stC8 : NodeState :=
  { identification := 0, addr := 1, successor_id := 5, successor_addr := 50,
    predecessor_id := none, predecessor_addr := none,
    finger_table := FingerTable.init 0 1 10, keystore := [] }

/-- A node that is its own successor. -/
def stC6a : NodeState :=
  { identification := 0, addr := 1, successor_id := 0, successor_addr := 1,
    predecessor_id := none, predecessor_addr := none,
    finger_table := FingerTable.init 0 1 10, keystore := [] }

/-- A node with a distinct successor. -/
def stC6b : NodeState :=
  { identification := 0, addr := 1, successor_id := 10, successor_addr := 100,
    predecessor_id := none, predecessor_addr := none,
    finger_table := FingerTable.init 0 1 10, keystore := [] }

/-- A node whose predecessor interval overlaps the successor interval: with
identification 0, successor 10 and predecessor 5, the hash 7 lies both in
(0, 10] and in (5, 0]. -/
def stC5 : NodeState :=
  { identification := 0, addr := 1, successor_id := 10, successor_addr := 100,
    predecessor_id := some 5, predecessor_addr := some 50,
    finger_table := FingerTable.init 0 1 10, keystore := [] }

/-- A node owning hash 7 with key 3 already stored. -/
def stC5w : NodeState :=
  { identification := 10, addr := 11, successor_id := 20, successor_addr := 200,
    predecessor_id := some 5, predecessor_addr := some 50,
    finger_table := FingerTable.init 10 11 10, keystore := [(9, 99)] }

/-- A node locally owning hash 7 with an empty keystore. -/
def stC7w : NodeState :=
  { identification := 10, addr := 11, successor_id := 20, successor_addr := 200,
    predecessor_id := some 5, predecessor_addr := some 50,
    finger_table := FingerTable.init 10 11 10, keystore := [] }

/-- Claim C2 counterexample: on a node satisfying the invariant, the
SUCCESSOR_REP handler with req_id covered by index 1 overwrites finger entry 1
with the reported successor (7, 70) while successor_id and successor_addr stay
(5, 50): entry 1 no longer mirrors the successor. -/
def stC2 : NodeState :=
  { identification := 0, addr := 1, successor_id := 5, successor_addr := 50,
    predecessor_id := none, predecessor_addr := none,
    finger_table := ⟨List.replicate 10 (5, 50), 10, 0, 1⟩, keystore := [] }

/-- The node asking during stabilization: identification 0 at address 1 with
successor (12, 20). -/
def stC3a : NodeState :=
  { identification := 0, addr := 1, successor_id := 12, successor_addr := 20,
    predecessor_id := none, predecessor_addr := none,
    finger_table := ⟨List.replicate 10 (12, 20), 10, 0, 1⟩, keystore := [] }

/-- The successor node: identification 12 at address 20, which records its
predecessor as id 7 living at address 70. -/
def stC3b : NodeState :=
  { identification := 12, addr := 20, successor_id := 0, successor_addr := 1,
    predecessor_id := some 7, predecessor_addr := some 70,
    finger_table := ⟨List.replicate 10 (0, 1), 10, 12, 20⟩, keystore := [] }

/-- A three-entry finger table of a node with identification 0. -/
def ftC4 : FingerTable := ⟨[(5, 50), (7, 70), (9, 90)], 3, 0, 1⟩

/-- Claim C1: a SUCCESSOR_REP whose req_id has no covering finger-table index
should be a no-op that never raises. In the source getIdxFromId falls off its
loop and returns None, and update(None - 1, ...) raises a TypeError that kills
the run loop: at node id 0 every covering interval lies inside (0, 512], so
req_id 513 is unmatched and the iteration fails, while a covered req_id such
as 3 is processed normally. -/
theorem C1_successor_rep_unmatched_crashes :
    stC1.finger_table.getIdxFromId 513 = none
    ∧ DHTNode.runStep stC1 9 (Wire.msg (Msg.SUCCESSOR_REP 513 7 70)) = none
    ∧ (DHTNode.runStep stC1 9 (Wire.msg (Msg.SUCCESSOR_REP 3 7 70))).isSome = true := by
  decide

/-- Claim C8: a malformed envelope should be discarded with the loop
continuing. The source calls pickle.loads and indexes the method field with no
exception handling, so an undecodable payload or a decoded object without the
expected fields raises and terminates the loop (result none), while a
well-formed message on the same state is handled. -/
theorem C8_undecodable_payload_crashes :
    DHTNode.runStep stC8 9 Wire.undecodable = none
    ∧ DHTNode.runStep stC8 9 Wire.missingFields = none
    ∧ DHTNode.runStep stC8 9 (Wire.msg Msg.PREDECESSOR) = some (stC8, [(9, Msg.STABILIZE none)]) := by
  decide

/-- Claim C9: a node constructed with no bootstrap address is immediately
inside the DHT, is its own successor with its own id and address, and has a
null predecessor. -/
theorem C9_singleton_init (address : Nat) :
    (dhtnode_init address none).inside_dht = true
    ∧ (dhtnode_init address none).successor_id = some (dht_hash address)
    ∧ (dhtnode_init address none).successor_addr = some address
    ∧ (dhtnode_init address none).predecessor_id = none
    ∧ (dhtnode_init address none).predecessor_addr = none :=
  ⟨rfl, rfl, rfl, rfl, rfl⟩

/-- Claim C6: DHTNode.node_join behaves in exactly one of three ways: a node that is
its own successor adopts the requester, fills the table with it and replies
JOIN_REP naming itself; a requester falling inside (identification,
successor_id] is spliced in with the old successor returned in the reply; any
other requester is forwarded unchanged to the current successor. -/
theorem C6_node_join_cases (st : NodeState) (jid jaddr : Nat) :
    (st.identification = st.successor_id →
      DHTNode.node_join st jid jaddr =
        ({st with successor_id := jid, successor_addr := jaddr,
                  finger_table := st.finger_table.fill jid jaddr},
         [(jaddr, Msg.JOIN_REP st.identification st.addr)]))
    ∧ (st.identification ≠ st.successor_id →
        contains st.identification st.successor_id jid = true →
        DHTNode.node_join st jid jaddr =
          ({st with successor_id := jid, successor_addr := jaddr,
                    finger_table := st.finger_table.fill jid jaddr},
           [(jaddr, Msg.JOIN_REP st.successor_id st.successor_addr)]))
    ∧ (st.identification ≠ st.successor_id →
        contains st.identification st.successor_id jid = false →
        DHTNode.node_join st jid jaddr = (st, [(st.successor_addr, Msg.JOIN_REQ jid jaddr)])) := by
  refine ⟨fun h => ?_, fun h1 h2 => ?_, fun h1 h2 => ?_⟩
  · simp [DHTNode.node_join, h]
  · simp [DHTNode.node_join, h1, h2]
  · simp [DHTNode.node_join, h1, h2]

/-- Witness for C6: all three branches exercised on concrete nodes. -/
theorem C6_node_join_cases_witness :
    DHTNode.node_join stC6a 5 55 =
      ({stC6a with successor_id := 5, successor_addr := 55,
                   finger_table := stC6a.finger_table.fill 5 55},
       [(55, Msg.JOIN_REP 0 1)])
    ∧ DHTNode.node_join stC6b 5 55 =
      ({stC6b with successor_id := 5, successor_addr := 55,
                   finger_table := stC6b.finger_table.fill 5 55},
       [(55, Msg.JOIN_REP 10 100)])
    ∧ DHTNode.node_join stC6b 500 77 = (stC6b, [(100, Msg.JOIN_REQ 500 77)]) :=
  ⟨(C6_node_join_cases stC6a 5 55).1 rfl,
   (C6_node_join_cases stC6b 5 55).2.1 (by decide) (by decide),
   (C6_node_join_cases stC6b 500 77).2.2 (by decide) (by decide)⟩

/-- Claim C5 counterexample: the node owns key 7 in the sense of the claim,
the hash falls between predecessor 5 and identification 0, and the key is
absent, yet DHTNode.put neither stores nor ACKs: the successor-interval test is made
first, and hash 7 also lies in (0, 10], so the request is forwarded to the
successor with the keystore untouched. -/
theorem C5_counterexample :
    dht_hash 7 = 7
    ∧ stC5.predecessor_id = some 5
    ∧ contains 5 stC5.identification 7 = true
    ∧ List.lookup 7 stC5.keystore = none
    ∧ DHTNode.put stC5 7 42 200 = some (stC5, [(100, Msg.PUT 7 42 (some 200))]) := by
  decide

/-- Claim C5 as amended: on every state where the node owns the key and the
hashed key moreover escapes the successor interval checked first, a PUT for an
absent key stores the pair and ACKs the requester, and a PUT for a present key
NACKs the requester and leaves the keystore completely unchanged. -/
theorem C5_put_local (st : NodeState) (p key value address : Nat)
    (hp : st.predecessor_id = some p)
    (h1 : contains st.identification st.successor_id (dht_hash key) = false)
    (h2 : contains p st.identification (dht_hash key) = true) :
    DHTNode.put st key value address =
      some (match List.lookup key st.keystore with
        | none => ({st with keystore := (key, value) :: st.keystore}, [(address, Msg.ACK none)])
        | some _ => (st, [(address, Msg.NACK)])) := by
  cases hlk : List.lookup key st.keystore <;> simp [DHTNode.put, h1, hp, h2, hlk]

/-- Witness for C5: an absent key is stored and ACKed, a present key is NACKed
with the keystore unchanged. -/
theorem C5_put_local_witness :
    DHTNode.put stC5w 7 1 40 = some ({stC5w with keystore := [(7, 1), (9, 99)]}, [(40, Msg.ACK none)])
    ∧ DHTNode.put stC5w 9 1 40 = some (stC5w, [(40, Msg.NACK)]) :=
  ⟨C5_put_local stC5w 5 7 1 40 rfl (by decide) (by decide),
   C5_put_local stC5w 5 9 1 40 rfl (by decide) (by decide)⟩

/-- The head of a replicated list of positive length. -/
theorem head_replicate_pos {α : Type} (n : Nat) (x : α) (h : 0 < n) :
    (List.replicate n x).head? = some x := by
  cases n with
  | zero => omega
  | succ m => rfl

/-- Setting position 0 of a nonempty list fixes its head. -/
theorem head_set_zero {α : Type} (l : List α) (x : α) (h : l ≠ []) :
    (l.set 0 x).head? = some x := by
  cases l with
  | nil => exact absurd rfl h
  | cons a t => rfl

/-- DHTNode.node_join never touches the keystore. -/
theorem node_join_keystore (st : NodeState) (jid jaddr : Nat) :
    (DHTNode.node_join st jid jaddr).1.keystore = st.keystore := by
  unfold DHTNode.node_join
  split_ifs <;> rfl

/-- DHTNode.stabilize never touches the keystore. -/
theorem stabilize_keystore (st : NodeState) (fid : Option Nat) (saddr : Nat) :
    (DHTNode.stabilize st fid saddr).1.keystore = st.keystore := by
  unfold DHTNode.stabilize
  cases fid with
  | none => rfl
  | some f => dsimp only; split_ifs <;> rfl

/-- DHTNode.get never changes the state at all: every non-raising branch returns the
input state, and the raising branch leaves it as it was. -/
theorem get_state (st : NodeState) (key address : Nat) :
    afterState (DHTNode.get st key address) st = st := by
  unfold afterState DHTNode.get
  cases hc1 : contains st.identification st.successor_id (dht_hash key)
  · cases hp : st.predecessor_id with
    | none => simp [hp]
    | some p =>
      cases hc2 : contains p st.identification (dht_hash key)
      · simp [hp, hc2]
      · cases hlk : List.lookup key st.keystore <;> simp [hp, hc2, hlk]
  · simp [hc1]

/-- DHTNode.put leaves every field except the keystore unchanged. -/
theorem put_frame (st : NodeState) (key value address : Nat) :
    (afterState (DHTNode.put st key value address) st).successor_id = st.successor_id
    ∧ (afterState (DHTNode.put st key value address) st).successor_addr = st.successor_addr
    ∧ (afterState (DHTNode.put st key value address) st).finger_table = st.finger_table
    ∧ (afterState (DHTNode.put st key value address) st).identification = st.identification
    ∧ (afterState (DHTNode.put st key value address) st).addr = st.addr := by
  unfold afterState DHTNode.put
  cases hc1 : contains st.identification st.successor_id (dht_hash key)
  · cases hp : st.predecessor_id with
    | none => simp [hp]
    | some p =>
      cases hc2 : contains p st.identification (dht_hash key)
      · simp [hp, hc2]
      · cases hlk : List.lookup key st.keystore <;> simp [hp, hc2, hlk]
  · simp [hc1]

/-- Claim C7: DHTNode.get makes the identical routing and ownership decision as DHTNode.put:
the classified outcome, including the forwarding destination, coincides, and
whenever DHTNode.put handles the key locally, DHTNode.get replies to the requester with ACK
carrying the stored value when present and NACK otherwise. -/
theorem C7_get_put_same_route (st : NodeState) (key value address : Nat) :
    routeClass (DHTNode.put st key value address) = routeClass (DHTNode.get st key address)
    ∧ (routeClass (DHTNode.put st key value address) = RouteOutcome.localReply →
        DHTNode.get st key address =
          some (st, [(address, match List.lookup key st.keystore with
            | some w => Msg.ACK (some w)
            | none => Msg.NACK)])) := by
  constructor
  · cases hc1 : contains st.identification st.successor_id (dht_hash key)
    · cases hp : st.predecessor_id with
      | none => simp [DHTNode.put, DHTNode.get, routeClass, hc1, hp]
      | some p =>
        cases hc2 : contains p st.identification (dht_hash key)
        · simp [DHTNode.put, DHTNode.get, routeClass, hc1, hp, hc2]
        · cases hlk : List.lookup key st.keystore <;>
            simp [DHTNode.put, DHTNode.get, routeClass, hc1, hp, hc2, hlk]
    · simp [DHTNode.put, DHTNode.get, routeClass, hc1]
  · intro h
    cases hc1 : contains st.identification st.successor_id (dht_hash key)
    · cases hp : st.predecessor_id with
      | none => simp [DHTNode.put, routeClass, hc1, hp] at h
      | some p =>
        cases hc2 : contains p st.identification (dht_hash key)
        · simp [DHTNode.put, routeClass, hc1, hp, hc2] at h
        · cases hlk : List.lookup key st.keystore <;>
            simp [DHTNode.get, hc1, hp, hc2, hlk]
    · simp [DHTNode.put, routeClass, hc1] at h

/-- Witness for C7: on a state that owns key 7, DHTNode.put classifies as a local
reply and DHTNode.get NACKs the absent key to the requester. -/
theorem C7_get_put_same_route_witness :
    routeClass (DHTNode.put stC7w 7 1 40) = routeClass (DHTNode.get stC7w 7 40)
    ∧ DHTNode.get stC7w 7 40 = some (stC7w, [(40, Msg.NACK)]) :=
  ⟨(C7_get_put_same_route stC7w 7 1 40).1,
   (C7_get_put_same_route stC7w 7 1 40).2 (by decide)⟩

/-- Claim C10: across one full iteration of the processing loop on any
envelope, the keystore changes only for a PUT that this node owns whose key is
absent, in which case exactly that pair is inserted; every other method,
including a forwarded or NACKed PUT, and the JOIN_REP processing of the join
loop, leaves the keystore exactly unchanged. -/
theorem C10_keystore_frame (st : NodeState) (sender : Nat) (w : Wire)
    (ist : InitState) (sid sa : Nat) :
    (afterState (DHTNode.runStep st sender w) st).keystore =
      (match w with
       | Wire.msg (Msg.PUT k v _) =>
         if !contains st.identification st.successor_id (dht_hash k)
             && localOwner st (dht_hash k)
             && (List.lookup k st.keystore).isNone then
           (k, v) :: st.keystore
         else st.keystore
       | _ => st.keystore)
    ∧ (processJoinRep ist sid sa).keystore = ist.keystore := by
  refine ⟨?_, rfl⟩
  cases w with
  | undecodable => rfl
  | missingFields => rfl
  | msg m =>
    cases m with
    | JOIN_REQ jid jaddr =>
      simpa [DHTNode.runStep, afterState] using node_join_keystore st jid jaddr
    | JOIN_REP a b => rfl
    | NOTIFY pid paddr =>
      cases hp : st.predecessor_id with
      | none => simp [DHTNode.runStep, afterState, DHTNode.notify, hp]
      | some p =>
        cases hc : contains p st.identification pid <;>
          simp [DHTNode.runStep, afterState, DHTNode.notify, hp, hc]
    | STABILIZE pid =>
      simpa [DHTNode.runStep, afterState] using stabilize_keystore st pid sender
    | SUCCESSOR q qa => rfl
    | SUCCESSOR_REP req sid2 sa2 =>
      cases hidx : st.finger_table.getIdxFromId req <;>
        simp [DHTNode.runStep, afterState, hidx]
    | PUT k v mf =>
      cases hc1 : contains st.identification st.successor_id (dht_hash k)
      · cases hp : st.predecessor_id with
        | none => simp [DHTNode.runStep, afterState, DHTNode.put, localOwner, hc1, hp]
        | some p =>
          cases hc2 : contains p st.identification (dht_hash k)
          · simp [DHTNode.runStep, afterState, DHTNode.put, localOwner, hc1, hp, hc2]
          · cases hlk : List.lookup k st.keystore <;>
              simp [DHTNode.runStep, afterState, DHTNode.put, localOwner, hc1, hp, hc2, hlk]
      · simp [DHTNode.runStep, afterState, DHTNode.put, localOwner, hc1]
    | GET k mf =>
      simpa [DHTNode.runStep, afterState] using congrArg NodeState.keystore (get_state st k (mf.getD sender))
    | ACK a => rfl
    | NACK => rfl
    | PREDECESSOR => rfl

/-- Claim C2 counterexample: processing SUCCESSOR_REP breaks the claimed
invariant on a concrete state that satisfied it. -/
theorem C2_counterexample :
    entryOneInv stC2 ∧ wfTable stC2
    ∧ DHTNode.runStep stC2 9 (Wire.msg (Msg.SUCCESSOR_REP 1 7 70)) =
        some ({stC2 with finger_table := ⟨(7, 70) :: List.replicate 9 (5, 50), 10, 0, 1⟩}, [])
    ∧ ¬ entryOneInv {stC2 with finger_table := ⟨(7, 70) :: List.replicate 9 (5, 50), 10, 0, 1⟩} := by
  decide

/-- Claim C2 as amended: after every protocol handler except SUCCESSOR_REP,
finger entry 1 equals the current (successor_id, successor_addr): the JOIN_REQ,
NOTIFY, STABILIZE, SUCCESSOR, PREDECESSOR, PUT and GET iterations preserve the
invariant on any well-formed state satisfying it, and the JOIN_REP processing
of the join loop establishes it outright. SUCCESSOR_REP may overwrite entry 1
with a reported successor that differs from the node successor. -/
theorem C2_entry_one_mirrors_successor (st : NodeState) (sender : Nat) (w : Wire)
    (ist : InitState) (sid sa : Nat)
    (hw : wfTable st) (hinv : entryOneInv st) (hrep : isSuccessorRep w = false)
    (him : 0 < ist.finger_table.m_bits) :
    entryOneInv (afterState (DHTNode.runStep st sender w) st)
    ∧ (processJoinRep ist sid sa).finger_table.finger_table.head? = some (sid, sa)
    ∧ (processJoinRep ist sid sa).successor_id = some sid
    ∧ (processJoinRep ist sid sa).successor_addr = some sa := by
  refine ⟨?_, ?_, rfl, rfl⟩
  · cases w with
    | undecodable => exact hinv
    | missingFields => exact hinv
    | msg m =>
      cases m with
      | JOIN_REQ jid jaddr =>
        simp only [DHTNode.runStep, afterState, Option.getD_some]
        unfold DHTNode.node_join
        split_ifs with h1 h2
        · simp only [entryOneInv, FingerTable.fill]
          exact head_replicate_pos st.finger_table.m_bits (jid, jaddr) hw.1
        · simp only [entryOneInv, FingerTable.fill]
          exact head_replicate_pos st.finger_table.m_bits (jid, jaddr) hw.1
        · exact hinv
      | JOIN_REP a b => exact hinv
      | NOTIFY pid paddr =>
        have h : entryOneInv (DHTNode.notify st pid paddr) := by
          unfold DHTNode.notify
          cases hp : st.predecessor_id with
          | none => exact hinv
          | some p => dsimp only; split_ifs with hc <;> exact hinv
        simpa [DHTNode.runStep, afterState] using h
      | STABILIZE pid =>
        simp only [DHTNode.runStep, afterState, Option.getD_some]
        unfold DHTNode.stabilize
        cases pid with
        | none => exact hinv
        | some f =>
          dsimp only
          split_ifs with hc
          · simp only [entryOneInv, FingerTable.update]
            have hpos : 0 < st.finger_table.finger_table.length := by
              rw [hw.2]; exact hw.1
            exact head_set_zero st.finger_table.finger_table (f, sender)
              (List.ne_nil_of_length_pos hpos)
          · exact hinv
      | SUCCESSOR q qa => exact hinv
      | SUCCESSOR_REP a b c => simp [isSuccessorRep] at hrep
      | PUT k v mf =>
        simp only [DHTNode.runStep]
        unfold entryOneInv
        rw [(put_frame st k v (mf.getD sender)).1, (put_frame st k v (mf.getD sender)).2.1,
          (put_frame st k v (mf.getD sender)).2.2.1]
        exact hinv
      | GET k mf =>
        simp only [DHTNode.runStep]
        rw [get_state st k (mf.getD sender)]
        exact hinv
      | ACK a => exact hinv
      | NACK => exact hinv
      | PREDECESSOR => exact hinv
  · simpa [processJoinRep, FingerTable.fill] using
      head_replicate_pos ist.finger_table.m_bits (sid, sa) him

/-- Witness for C2: a NOTIFY iteration on a concrete invariant-satisfying
state, and a concrete JOIN_REP adoption. -/
theorem C2_entry_one_mirrors_successor_witness :
    entryOneInv (afterState (DHTNode.runStep stC2 9 (Wire.msg (Msg.NOTIFY 3 30))) stC2)
    ∧ (processJoinRep (dhtnode_init 77 (some 5)) 4 44).finger_table.finger_table.head? = some (4, 44)
    ∧ (processJoinRep (dhtnode_init 77 (some 5)) 4 44).successor_id = some 4
    ∧ (processJoinRep (dhtnode_init 77 (some 5)) 4 44).successor_addr = some 44 :=
  C2_entry_one_mirrors_successor stC2 9 (Wire.msg (Msg.NOTIFY 3 30)) (dhtnode_init 77 (some 5)) 4 44
    (by decide) (by decide) rfl (by decide)

/-- Claim C3 counterexample: the PREDECESSOR reply carries only the
predecessor id, never its address; processing the resulting STABILIZE the
asking node adopts the reported id 7 but pairs it with the address 20 of the
message sender, not with the reported predecessor address 70, so the reported
predecessor does not become the successor with both its identifier and its
address. -/
theorem C3_counterexample :
    DHTNode.runStep stC3b 1 (Wire.msg Msg.PREDECESSOR) =
      some (stC3b, [(1, Msg.STABILIZE (some 7))])
    ∧ stC3b.predecessor_addr = some 70
    ∧ strictlyBetween stC3a.identification stC3a.successor_id 7
    ∧ (DHTNode.stabilize stC3a (some 7) 20).1.successor_id = 7
    ∧ (DHTNode.stabilize stC3a (some 7) 20).1.successor_addr = 20
    ∧ (20 : Nat) ≠ 70 := by
  decide

/-- Claim C3 as amended: on a non-null reported predecessor id strictly
between this node and its successor, that id becomes the successor id while
the successor address becomes the address the STABILIZE message came from;
and in every case the sent messages are exactly a NOTIFY announcing this node
to the possibly updated successor address followed by one get_successor
lookup message for each of the m finger-table refresh targets
(node_id + 2 ^ i) mod 2 ^ m_bits. -/
theorem C3_stabilize (st : NodeState) (f saddr : Nat) (fid : Option Nat)
    (h : strictlyBetween st.identification st.successor_id f) :
    (DHTNode.stabilize st (some f) saddr).1.successor_id = f
    ∧ (DHTNode.stabilize st (some f) saddr).1.successor_addr = saddr
    ∧ (DHTNode.stabilize st fid saddr).2 =
        ((DHTNode.stabilize st fid saddr).1.successor_addr,
          Msg.NOTIFY st.identification st.addr)
          :: (List.range st.finger_table.m_bits).map
              (fun i => DHTNode.get_successor (DHTNode.stabilize st fid saddr).1
                          ((st.finger_table.node_id + 2 ^ i) % 2 ^ st.finger_table.m_bits)
                          st.addr) := by
  obtain ⟨hc, hne⟩ := h
  refine ⟨?_, ?_, ?_⟩
  · simp [DHTNode.stabilize, hc]
  · simp [DHTNode.stabilize, hc]
  · unfold DHTNode.stabilize
    cases fid with
    | none =>
      simp [FingerTable.refresh, List.map_map, Function.comp]
    | some g =>
      dsimp only
      split_ifs with hcg
      · simp [FingerTable.refresh, FingerTable.update, List.map_map, Function.comp]
      · simp [FingerTable.refresh, List.map_map, Function.comp]

/-- Witness for C3: the concrete asking node updates its successor pair to
(7, 20) and leads its outgoing messages with the NOTIFY. -/
theorem C3_stabilize_witness :
    strictlyBetween stC3a.identification stC3a.successor_id 7
    ∧ (DHTNode.stabilize stC3a (some 7) 20).1.successor_id = 7
    ∧ (DHTNode.stabilize stC3a (some 7) 20).1.successor_addr = 20
    ∧ (DHTNode.stabilize stC3a (some 7) 20).2.head? =
        some ((DHTNode.stabilize stC3a (some 7) 20).1.successor_addr, Msg.NOTIFY 0 1) :=
  ⟨by decide, (C3_stabilize stC3a 7 20 (some 7) (by decide)).1,
   (C3_stabilize stC3a 7 20 (some 7) (by decide)).2.1, by decide⟩

/-- The scan inside FingerTable.find stops at the first matching position:
starting the counter at i, a first match at offset k yields some (i + k). -/
theorem scanMatch_first (nid ident : Nat) :
    ∀ (l : List (Nat × Nat)) (i k : Nat), k < l.length →
      contains nid (l.getD k (0, 0)).1 ident = true →
      (∀ k2, k2 < k → contains nid (l.getD k2 (0, 0)).1 ident = false) →
      scanMatch nid ident l i = some (i + k) := by
  intro l
  induction l with
  | nil => intro i k hk _ _; simp at hk
  | cons e rest ih =>
    intro i k hk hP hmin
    cases k with
    | zero =>
      simp only [List.getD_cons_zero] at hP
      unfold scanMatch
      simp [hP]
    | succ k2 =>
      have h0 : contains nid e.1 ident = false := by
        simpa using hmin 0 (Nat.succ_pos k2)
      unfold scanMatch
      simp only [h0, Bool.false_eq_true, if_false]
      have hrec := ih (i + 1) k2 (by simpa using hk) (by simpa using hP)
        (fun k3 hk3 => by simpa using hmin (k3 + 1) (Nat.succ_lt_succ hk3))
      rw [hrec]
      congr 1
      omega

/-- The scan inside FingerTable.find returns none when no position matches. -/
theorem scanMatch_none_of_all (nid ident : Nat) :
    ∀ (l : List (Nat × Nat)) (i : Nat),
      (∀ k, k < l.length → contains nid (l.getD k (0, 0)).1 ident = false) →
      scanMatch nid ident l i = none := by
  intro l
  induction l with
  | nil => intro i _; rfl
  | cons e rest ih =>
    intro i h
    have h0 : contains nid e.1 ident = false := by simpa using h 0 (by simp)
    unfold scanMatch
    simp only [h0, Bool.false_eq_true, if_false]
    exact ih (i + 1) (fun k hk => by simpa using h (k + 1) (by simpa using Nat.succ_lt_succ hk))

/-- Claim C4: on a finger table whose entry list has m_bits entries, find
scans in order and at the first matching 0-based position j, that is 1-indexed
position i = j + 1, it returns the address of the entry at list position
(j + m - 1) mod m, which is the 1-indexed entry i - 1 when i is at least 2 and
the last entry when i = 1, since Python index -1 denotes the last element;
with no matching entry it returns the last entry address. -/
theorem C4_find_scan (ft : FingerTable) (ident j : Nat)
    (hlen : ft.finger_table.length = ft.m_bits) :
    (FirstMatch ft ident j →
      ft.find ident = (ft.finger_table.getD ((j + ft.m_bits - 1) % ft.m_bits) (0, 0)).2)
    ∧ (NoMatch ft ident →
      ft.find ident = (ft.finger_table.getD (ft.m_bits - 1) (0, 0)).2) := by
  constructor
  · rintro ⟨hj, hP, hmin⟩
    have hs := scanMatch_first ft.node_id ident ft.finger_table 0 j hj hP hmin
    rw [Nat.zero_add] at hs
    unfold FingerTable.find
    rw [hs]
  · intro hnm
    have hs := scanMatch_none_of_all ft.node_id ident ft.finger_table 0 hnm
    unfold FingerTable.find
    rw [hs, hlen]

/-- Witness for C4: target 6 first matches at 0-based position 1, that is
1-indexed entry 2, and find returns the address of entry 1; target 2000
matches nothing and find returns the last entry address. -/
theorem C4_find_scan_witness :
    FirstMatch ftC4 6 1 ∧ ftC4.find 6 = 50
    ∧ NoMatch ftC4 2000 ∧ ftC4.find 2000 = 90 :=
  ⟨by decide, (C4_find_scan ftC4 6 1 (by decide)).1 (by decide),
   by decide, (C4_find_scan ftC4 2000 0 (by decide)).2 (by decide)⟩
